import Mathlib

set_option maxRecDepth 100000

/-!
Verification development for the parking-data validator
(`scripts/validate-parking.js`) and its companion updates validator
(`scripts/validate-updates.js`).

JavaScript values that can occur as fields of the JSON dataset are modelled
by `JVal`.  JS numbers are modelled by `ℚ` (every value this program
computes is produced by exact small-integer arithmetic, where float and
rational arithmetic agree); the IEEE `NaN` value, which arises only as the
result of a failed numeric coercion, is the separate constructor `jnan`.
Plain (non-array) objects appearing as scalar fields are collapsed into the
opaque constructor `jobj` (their numeric coercion is `NaN`, they are truthy,
and their string coercion is "[object Object]").
-/

/-- A JavaScript value as it can appear in a slot field of the dataset. -/
inductive JVal
  | jnull
  | jundef
  | jnan
  | jnum (q : ℚ)
  | jstr (s : String)
  | jbool (b : Bool)
  | jobj
deriving DecidableEq

/-- JS truthiness: `false`, `0`, `NaN`, `""`, `null`, `undefined` are falsy. -/
def truthy : JVal → Bool
  | .jnull => false
  | .jundef => false
  | .jnan => false
  | .jnum q => q != 0
  | .jstr s => s != ""
  | .jbool b => b
  | .jobj => true

/-- One character of a decimal digit, `0 ≤ d ≤ 9`. -/
def digitChar (d : ℕ) : Char :=
  if d = 0 then '0' else if d = 1 then '1' else if d = 2 then '2'
  else if d = 3 then '3' else if d = 4 then '4' else if d = 5 then '5'
  else if d = 6 then '6' else if d = 7 then '7' else if d = 8 then '8' else '9'

/-- Decimal digits of `n`, most significant first; `fuel`-bounded recursion
(`fuel > log10 n` suffices, and `natDigs` always supplies enough). -/
def natDigsAux : ℕ → ℕ → List Char
  | 0, _ => []
  | fuel + 1, n =>
      if n < 10 then [digitChar n]
      else natDigsAux fuel (n / 10) ++ [digitChar (n % 10)]

/-- Decimal representation of a natural number as characters. -/
def natDigs (n : ℕ) : List Char := natDigsAux (n + 1) n

/-- Decimal rendering of a rational.  JS renders numbers in decimal; every
number this program interpolates into a message is an integer (denominator
one), where the two renderings agree.  The (unreachable) non-integer branch
falls back to fraction notation. -/
def renderQ (q : ℚ) : List Char :=
  (if q.num < 0 then ['-'] else []) ++ natDigs q.num.natAbs ++
    (if q.den = 1 then [] else '/' :: natDigs q.den)

/-- `renderQ` packaged as a `String`. -/
def qStr (q : ℚ) : String := String.mk (renderQ q)

/-- Is `c` an ASCII whitespace character (the common JS cases)? -/
def isWsChar (c : Char) : Bool := c == ' ' || c == '\t' || c == '\n' || c == '\r'

/-- Strip leading and trailing whitespace. -/
def trimChars (cs : List Char) : List Char :=
  ((cs.dropWhile isWsChar).reverse.dropWhile isWsChar).reverse

/-- Value of a digit string (assumes every character is a digit). -/
def digitsToNat (cs : List Char) : ℕ :=
  cs.foldl (fun a c => a * 10 + (c.toNat - 48)) 0

/-- The decimal core of the JS `Number(string)` coercion: optional
whitespace, optional sign, digits with an optional decimal point; an
all-whitespace string is `0`; anything else is `NaN` (`none`).  Hexadecimal,
exponent and `Infinity` forms are not exercised by this repository's data
paths and are conservatively mapped to `NaN`. -/
def str2num (s : String) : Option ℚ :=
  let cs := trimChars s.data
  if cs = [] then some 0
  else
    let sgn : ℚ := match cs with
      | '-' :: _ => -1
      | _ => 1
    let body : List Char := match cs with
      | '-' :: rest => rest
      | '+' :: rest => rest
      | _ => cs
    let ip := body.takeWhile (fun c => c != '.')
    let rest := body.dropWhile (fun c => c != '.')
    match rest with
    | [] =>
        if ip ≠ [] ∧ ip.all Char.isDigit then some (sgn * digitsToNat ip) else none
    | _ :: fp =>
        if (ip ≠ [] ∨ fp ≠ []) ∧ ip.all Char.isDigit ∧ fp.all Char.isDigit then
          some (sgn * ((digitsToNat ip : ℚ) + (digitsToNat fp : ℚ) / 10 ^ fp.length))
        else none

/-- The JS `Number(v)` coercion; `none` is `NaN`. -/
def toNumber : JVal → Option ℚ
  | .jnull => some 0
  | .jundef => none
  | .jnan => none
  | .jnum q => some q
  | .jstr s => str2num s
  | .jbool b => some (if b then 1 else 0)
  | .jobj => none

/-- Numeric coercion with `NaN ↦ 0`; used only where a `NaN` cannot occur or
where the surrounding guard makes the two agree. -/
def numOf (v : JVal) : ℚ := (toNumber v).getD 0

/-- JS `Math.round`: round half toward positive infinity. -/
def jsRound (q : ℚ) : ℤ := ⌊q + (1 : ℚ) / 2⌋

/-- `parseNumber(value, defaultValue)` (validate-parking.js lines 481-495):
`null`/`undefined`/`''` give the default, a `NaN` coercion gives the default
(plus a logged warning), otherwise round to nearest and clamp to `≥ 0`. -/
def parseNumber (value : JVal) (defaultValue : ℚ) : ℚ :=
  if value = JVal.jnull ∨ value = JVal.jundef ∨ value = JVal.jstr "" then defaultValue
  else
    match toNumber value with
    | none => defaultValue
    | some num => max 0 ((jsRound num : ℤ) : ℚ)

/-- Does `parseNumber` log its invalid-number warning on this input? -/
def parseNumberWarns (value : JVal) : Bool :=
  if value = JVal.jnull ∨ value = JVal.jundef ∨ value = JVal.jstr "" then false
  else (toNumber value).isNone

/-- The JS `String(v)` coercion (used by string concatenation). -/
def jsToString : JVal → String
  | .jnull => "null"
  | .jundef => "undefined"
  | .jnan => "NaN"
  | .jnum q => qStr q
  | .jstr s => s
  | .jbool b => if b then "true" else "false"
  | .jobj => "[object Object]"

/-- The JS `+` operator: if either operand's primitive is a string the
operands are coerced to strings and concatenated; otherwise both are coerced
to numbers and added, `NaN` absorbing. -/
def jsAdd (a b : JVal) : JVal :=
  match a, b with
  | .jstr _, _ => .jstr (jsToString a ++ jsToString b)
  | _, .jstr _ => .jstr (jsToString a ++ jsToString b)
  | .jobj, _ => .jstr (jsToString a ++ jsToString b)
  | _, .jobj => .jstr (jsToString a ++ jsToString b)
  | _, _ =>
      match toNumber a, toNumber b with
      | some x, some y => .jnum (x + y)
      | _, _ => .jnan

/-- JS `Math.min(a, v)` where `a` is already a number: coerce `v`; a `NaN`
operand makes the result `NaN`. -/
def jsMin (a : ℚ) (v : JVal) : JVal :=
  match toNumber v with
  | none => .jnan
  | some t => .jnum (min a t)

/-- A capacity/availability pair for one vehicle type at one location,
as stored in the JSON dataset (fields may hold any JSON value). -/
structure Slot where
  total : JVal
  available : JVal
deriving DecidableEq

/-- The closed set of configured vehicle types
(`allowedVehicleTypes: ['bus', 'mobil', 'motor']`). -/
inductive VType
  | bus
  | mobil
  | motor
deriving DecidableEq

/-- The vehicle-type key as it appears in messages. -/
def VType.label : VType → String
  | .bus => "bus"
  | .mobil => "mobil"
  | .motor => "motor"

/-- A dataset location.  `validateStructure` requires `name` and synthesizes
any missing vehicle-type slot, so each slot is present.  The wall-clock
field `lastValidated` (line 387) is not modelled; `validationIssues` is. -/
structure Location where
  name : String
  bus : Slot
  mobil : Slot
  motor : Slot
  validationIssues : ℕ := 0
deriving DecidableEq

/-- Dynamic field access `location[type]`. -/
def Location.slotOf (l : Location) : VType → Slot
  | .bus => l.bus
  | .mobil => l.mobil
  | .motor => l.motor

/-- The configuration flags of the shipped program that vary by CLI
invocation.  `minCapacity`/`maxCapacity` are fixed constructor literals
(lines 49-50) — `main` constructs the validator with no overrides — so they
are modelled as the constants below. -/
structure Config where
  force : Bool
  dryRun : Bool
  backup : Bool
deriving DecidableEq

/-- `minCapacity: 0` (line 49). -/
def minCapacity : ℚ := 0

/-- `maxCapacity: 1000` (line 50). -/
def maxCapacity : ℚ := 1000

/-- A validation issue recorded by `processVehicleType`; `renderIssue` below
gives the exact message text pushed into `result.issues`. -/
inductive Issue
  | belowMin (vt : VType) (total bound : ℚ)
  | aboveMax (vt : VType) (total bound : ℚ)
  | negAvail (vt : VType) (avail : ℚ)
  | availExceeds (vt : VType) (avail total : ℚ)
deriving DecidableEq

/-- The exact issue message pushed by `processVehicleType` (lines 439, 447,
455, 461). -/
def renderIssue : Issue → String
  | .belowMin vt t b =>
      vt.label ++ ": Total capacity (" ++ qStr t ++ ") below minimum (" ++ qStr b ++ ")"
  | .aboveMax vt t b =>
      vt.label ++ ": Total capacity (" ++ qStr t ++ ") exceeds maximum (" ++ qStr b ++ ")"
  | .negAvail vt a =>
      vt.label ++ ": Negative available spaces (" ++ qStr a ++ ")"
  | .availExceeds vt a t =>
      vt.label ++ ": Available (" ++ qStr a ++ ") exceeds total (" ++ qStr t ++ ")"

/-- A fix recorded by `processVehicleType` (structured stand-ins for the
pushed message strings, whose text no claim examines). -/
inductive FixEntry
  | forcedMin (vt : VType) (bound : ℚ)
  | cappedMax (vt : VType) (bound : ℚ)
  | fixedNegAvail (vt : VType)
  | fixedAvailToTotal (vt : VType) (total : ℚ)
  | updated (vt : VType) (origTotal newTotal origAvail newAvail : JVal)
deriving DecidableEq

/-- Result of processing one vehicle type of one location. -/
structure VTResult where
  slot : Slot
  issues : List Issue
  fixes : List FixEntry
deriving DecidableEq

/-- `processVehicleType` (validate-parking.js lines 419-476), for a slot
that is present as a record.  (The missing-structure branch at lines
424-428 reassigns a `const` binding and would throw; `validateStructure`
synthesizes every missing slot before processing, so that branch is
unreachable on completed runs and is not modelled.)  Lines 466-468 write
back `vehicleData.total || total` and
`vehicleData.available || Math.min(available, vehicleData.total)`, which
keep the raw stored values whenever they are truthy. -/
def processVehicleType (cfg : Config) (vt : VType) (s : Slot) : VTResult :=
  let originalTotal := s.total
  let originalAvailable := s.available
  let total := parseNumber s.total 0
  let available := parseNumber s.available 0
  let issues1 : List Issue :=
    if total < minCapacity then [Issue.belowMin vt total minCapacity] else []
  let t1 : JVal :=
    if total < minCapacity ∧ cfg.force = true then JVal.jnum minCapacity else s.total
  let fixes1 : List FixEntry :=
    if total < minCapacity ∧ cfg.force = true then [FixEntry.forcedMin vt minCapacity] else []
  let issues2 : List Issue :=
    if total > maxCapacity then [Issue.aboveMax vt total maxCapacity] else []
  let t2 : JVal :=
    if total > maxCapacity ∧ cfg.force = true then JVal.jnum maxCapacity else t1
  let fixes2 : List FixEntry :=
    if total > maxCapacity ∧ cfg.force = true then [FixEntry.cappedMax vt maxCapacity] else []
  let issues3 : List Issue :=
    if available < 0 then [Issue.negAvail vt available] else []
  let a1 : JVal :=
    if available < 0 then JVal.jnum 0 else s.available
  let fixes3 : List FixEntry :=
    if available < 0 then [FixEntry.fixedNegAvail vt] else []
  let issues4 : List Issue :=
    if available > total then [Issue.availExceeds vt available total] else []
  let a2 : JVal :=
    if available > total then JVal.jnum total else a1
  let fixes4 : List FixEntry :=
    if available > total then [FixEntry.fixedAvailToTotal vt total] else []
  let tF : JVal := if truthy t2 = true then t2 else JVal.jnum total
  let aF : JVal := if truthy a2 = true then a2 else jsMin available tF
  let fixes5 : List FixEntry :=
    if originalTotal = tF ∧ originalAvailable = aF then []
    else [FixEntry.updated vt originalTotal tF originalAvailable aF]
  { slot := ⟨tF, aF⟩,
    issues := issues1 ++ issues2 ++ issues3 ++ issues4,
    fixes := fixes1 ++ fixes2 ++ fixes3 ++ fixes4 ++ fixes5 }

/-- Does a slot satisfy the specified invariant `0 ≤ available ≤ total`
(on numeric stored values)? -/
def slotInvariantHolds (s : Slot) : Bool :=
  match s.total, s.available with
  | JVal.jnum t, JVal.jnum a => decide (0 ≤ a ∧ a ≤ t)
  | _, _ => false

example :
    (processVehicleType ⟨false, false, true⟩ VType.bus ⟨JVal.jnum (-5), JVal.jnum 10⟩).slot
      = ⟨JVal.jnum (-5), JVal.jnum (-5)⟩ := by with_unfolding_all decide
example :
    (processVehicleType ⟨false, false, true⟩ VType.bus ⟨JVal.jnum 10, JVal.jnum (-5)⟩).issues
      = [] := by with_unfolding_all decide
example :
    (processVehicleType ⟨false, false, true⟩ VType.bus ⟨JVal.jnum (-5), JVal.jnum 0⟩).issues
      = [] := by with_unfolding_all decide
example :
    (processVehicleType ⟨true, false, true⟩ VType.bus ⟨JVal.jnum 2000, JVal.jnum 0⟩).slot.total
      = JVal.jnum 1000 := by with_unfolding_all decide
example :
    (processVehicleType ⟨false, false, true⟩ VType.bus ⟨JVal.jstr "10", JVal.jnum 0⟩).slot
      = ⟨JVal.jstr "10", JVal.jnum 0⟩ := by with_unfolding_all decide

/-- Result of processing one location (`processBatch` body, lines 361-413). -/
structure LocResult where
  loc : Location
  issues : List Issue
  fixes : List FixEntry
deriving DecidableEq

/-- Process the three vehicle types of one location and update the
location's metadata (lines 368-388).  Issues and fixes are accumulated in
vehicle-type order. -/
def processLocation (cfg : Config) (l : Location) : LocResult :=
  let rb := processVehicleType cfg VType.bus l.bus
  let rm := processVehicleType cfg VType.mobil l.mobil
  let rr := processVehicleType cfg VType.motor l.motor
  let issues := rb.issues ++ rm.issues ++ rr.issues
  { loc := { l with bus := rb.slot, mobil := rm.slot, motor := rr.slot,
                    validationIssues := issues.length },
    issues := issues,
    fixes := rb.fixes ++ rm.fixes ++ rr.fixes }

/-- `this.results.totals[vehicleType]` after all batches: per location the
slot is processed first, then its (possibly raw) stored `total` is added
with JS `+=` (lines 369 and 382). -/
def typeTotal (cfg : Config) (locs : List Location) (vt : VType) : JVal :=
  locs.foldl (fun acc l => jsAdd acc (((processLocation cfg l).loc.slotOf vt).total))
    (JVal.jnum 0)

/-- `this.results.available[vehicleType]` after all batches (line 383). -/
def typeAvail (cfg : Config) (locs : List Location) (vt : VType) : JVal :=
  locs.foldl (fun acc l => jsAdd acc (((processLocation cfg l).loc.slotOf vt).available))
    (JVal.jnum 0)

/-- `this.results.totals.total` (line 526): `Object.values(totals)` is
`[bus, mobil, motor, total]` with the `total` field still its initial `0`,
reduced by JS `+` from initial `0`. -/
def totalsTotalJ (cfg : Config) (locs : List Location) : JVal :=
  jsAdd (jsAdd (jsAdd (jsAdd (JVal.jnum 0) (typeTotal cfg locs VType.bus))
    (typeTotal cfg locs VType.mobil)) (typeTotal cfg locs VType.motor)) (JVal.jnum 0)

/-- `this.results.available.total` (line 527). -/
def availTotalJ (cfg : Config) (locs : List Location) : JVal :=
  jsAdd (jsAdd (jsAdd (jsAdd (JVal.jnum 0) (typeAvail cfg locs VType.bus))
    (typeAvail cfg locs VType.mobil)) (typeAvail cfg locs VType.motor)) (JVal.jnum 0)

/-- Division with an explicit divide-by-zero marker (`none`): the JS sites
below only ever divide after a `> 0` guard, which is the claimed safety
property. -/
def jsDiv (a b : ℚ) : Option ℚ := if b = 0 then none else some (a / b)

/-- Per-location recommendation utilization (line 505):
`data.total > 0 ? ((data.total - data.available) / data.total) * 100 : 0`. -/
def recUtil (total available : ℚ) : Option ℚ :=
  if total > 0 then (jsDiv (total - available) total).map (fun u => u * 100) else some 0

/-- Per-type statistics utilization (lines 530-535); when the guard fails
the initialized `0` is kept. -/
def typeUtil (total available : ℚ) : Option ℚ :=
  if total > 0 then (jsDiv (total - available) total).map (fun u => u * 100) else some 0

/-- Overall statistics utilization (lines 537-540). -/
def overallUtil (total available : ℚ) : Option ℚ :=
  if total > 0 then (jsDiv (total - available) total).map (fun u => u * 100) else some 0

/-- Per-location utilization in the top-utilized ranking (lines 692-693). -/
def topLocUtil (capacity available : ℚ) : Option ℚ :=
  if capacity > 0 then (jsDiv (capacity - available) capacity).map (fun u => u * 100) else some 0

/-- The per-type utilization actually stored, on the (possibly coerced)
running totals.  The JS guard `totals[type] > 0` coerces its operand and is
false on `NaN`, which agrees with `numOf` mapping `NaN` to `0`. -/
def typeUtilJ (t a : JVal) : ℚ := (typeUtil (numOf t) (numOf a)).getD 0

/-- The overall utilization actually stored (same coercions). -/
def overallUtilJ (t a : JVal) : ℚ := (overallUtil (numOf t) (numOf a)).getD 0

/-- The dataset document: `{ locations, statistics }`.  Of the previous
statistics block only the fields the program reads back or rewrites across
runs are modelled: `statistics?.metadata?.updateCount` (read at line 580)
and `statistics.performance.updateCount` (written at line 580).  A written
counter is a JSON number, so the carried value is modelled as `Option ℚ`
(`none` = the field is absent). -/
structure Dataset where
  locations : List Location
  statsMetaUpdateCount : Option ℚ := none
  statsPerfUpdateCount : Option ℚ := none
deriving DecidableEq

/-- The statistics block written by `updateStatistics` (lines 543-583).
`utilization` is stored in the JSON via `toFixed(1)`, a deterministic
rendering of the rational kept here; the wall-clock `lastUpdated` /
`validatedAt` metadata and `lastProcessingTime` are not modelled.  The
written `metadata` object (lines 569-576) has no `updateCount` field;
the incremented counter goes to `performance.updateCount` (line 580) while
the next run reads `metadata.updateCount`. -/
structure StatsBlock where
  capBus : JVal
  capMobil : JVal
  capMotor : JVal
  capTotal : JVal
  avBus : JVal
  avMobil : JVal
  avMotor : JVal
  avTotal : JVal
  utilBus : ℚ
  utilMobil : ℚ
  utilMotor : ℚ
  utilOverall : ℚ
  totalLocations : ℕ
  issuesFound : ℕ
  fixesApplied : ℕ
  metaUpdateCount : Option ℚ
  perfUpdateCount : ℚ
deriving DecidableEq

/-- The statistics computed by a run over dataset `d` (`processData` +
`updateStatistics`), as a function of the input document. -/
def computeStats (cfg : Config) (d : Dataset) : StatsBlock :=
  { capBus := typeTotal cfg d.locations VType.bus,
    capMobil := typeTotal cfg d.locations VType.mobil,
    capMotor := typeTotal cfg d.locations VType.motor,
    capTotal := totalsTotalJ cfg d.locations,
    avBus := typeAvail cfg d.locations VType.bus,
    avMobil := typeAvail cfg d.locations VType.mobil,
    avMotor := typeAvail cfg d.locations VType.motor,
    avTotal := availTotalJ cfg d.locations,
    utilBus := typeUtilJ (typeTotal cfg d.locations VType.bus) (typeAvail cfg d.locations VType.bus),
    utilMobil := typeUtilJ (typeTotal cfg d.locations VType.mobil) (typeAvail cfg d.locations VType.mobil),
    utilMotor := typeUtilJ (typeTotal cfg d.locations VType.motor) (typeAvail cfg d.locations VType.motor),
    utilOverall := overallUtilJ (totalsTotalJ cfg d.locations) (availTotalJ cfg d.locations),
    totalLocations := d.locations.length,
    issuesFound := (d.locations.map (fun l => (processLocation cfg l).issues.length)).sum,
    fixesApplied := (d.locations.map (fun l => (processLocation cfg l).fixes.length)).sum,
    metaUpdateCount := none,
    perfUpdateCount := (d.statsMetaUpdateCount.getD 0) + 1 }

/-- The document as persisted by a (non-dry) run: locations mutated in
place, statistics replaced by the computed block.  In particular the new
`metadata` carries no `updateCount`. -/
def applyRun (cfg : Config) (d : Dataset) : Dataset :=
  { locations := d.locations.map (fun l => (processLocation cfg l).loc),
    statsMetaUpdateCount := (computeStats cfg d).metaUpdateCount,
    statsPerfUpdateCount := some (computeStats cfg d).perfUpdateCount }

/-- The persistent file writes a run can perform (log-file appends, which
happen on every run, are incidental and not modelled). -/
inductive Effect
  | backupWrite
  | dataWrite
  | reportWrite
  | latestReportWrite
  | summaryWrite
deriving DecidableEq

/-- Outcome of one `validate()` invocation that completes successfully. -/
structure RunOutcome where
  fileState : Dataset
  stats : StatsBlock
  effects : List Effect
deriving DecidableEq

/-- One completed run (`validate`, lines 187-231): `createBackup` is called
when `backup` is set and skips itself in dry-run (lines 236-240); `saveData`
is skipped in dry-run (lines 351-354); `generateReport` writes the dated
report, the latest alias and the text summary unconditionally (lines
663-668 and 802). -/
def runModel (cfg : Config) (d : Dataset) : RunOutcome :=
  { fileState := if cfg.dryRun then d else applyRun cfg d,
    stats := computeStats cfg d,
    effects :=
      (if cfg.backup ∧ ¬ cfg.dryRun then [Effect.backupWrite] else []) ++
      (if cfg.dryRun then [] else [Effect.dataWrite]) ++
      [Effect.reportWrite, Effect.latestReportWrite, Effect.summaryWrite] }

example :
    (computeStats ⟨false, false, true⟩ { locations := [] }).perfUpdateCount = 1 := by
  with_unfolding_all decide
example :
    (computeStats ⟨false, false, true⟩
      (applyRun ⟨false, false, true⟩ { locations := [], statsMetaUpdateCount := some 5 })).perfUpdateCount
      = 1 := by
  with_unfolding_all decide

/-- Per-location list of issue message strings, as pushed into
`locationIssues` (lines 364-375). -/
def locationIssueStrings (cfg : Config) (l : Location) : List String :=
  ((processVehicleType cfg VType.bus l.bus).issues ++
   (processVehicleType cfg VType.mobil l.mobil).issues ++
   (processVehicleType cfg VType.motor l.motor).issues).map renderIssue

/-- `this.results.issues`: one `{location, issues}` entry per location that
produced at least one issue (lines 391-396). -/
def resultsIssues (cfg : Config) (locs : List Location) : List (String × List String) :=
  (locs.map (fun l => (l.name, locationIssueStrings cfg l))).filter
    (fun e => !e.2.isEmpty)

/-- JS `String.prototype.includes`: substring containment. -/
def includesStr (s pat : String) : Bool := decide (pat.data <:+: s.data)

/-- `report.details.issues_by_severity.warning` (lines 637-639): locations
one of whose issue strings contains "Warning" or "High". -/
def warningSeverity (cfg : Config) (locs : List Location) : ℕ :=
  ((resultsIssues cfg locs).filter
    (fun e => e.2.any (fun s => includesStr s "Warning" || includesStr s "High"))).length

/-- `report.details.issues_by_severity.critical` (lines 634-636), for
context: issue strings containing "Critical" or "exceeds". -/
def criticalSeverity (cfg : Config) (locs : List Location) : ℕ :=
  ((resultsIssues cfg locs).filter
    (fun e => e.2.any (fun s => includesStr s "Critical" || includesStr s "exceeds"))).length

/-- A pending update entry from `data/pending-updates.json`
(validate-updates.js); a field holds `jundef` when absent. -/
structure PendingUpdate where
  location_id : JVal := .jundef
  petugas_name : JVal := .jundef
  bus : JVal := .jundef
  mobil : JVal := .jundef
  motor : JVal := .jundef
  timestamp : JVal := .jundef
  notes : JVal := .jundef
deriving DecidableEq

/-- Is the value a JS string (`typeof v === 'string'`)? -/
def isStr : JVal → Bool
  | .jstr _ => true
  | _ => false

/-- JS global `isNaN(v)`: numeric coercion yields `NaN`. -/
def jsIsNaN (v : JVal) : Bool := (toNumber v).isNone

/-- Is the coerced number negative (`v < 0` with JS coercion; false on
`NaN`)? -/
def numLT0 (v : JVal) : Bool :=
  match toNumber v with
  | some q => decide (q < 0)
  | none => false

/-- Abstraction of `!isNaN(new Date(v).getTime())`: numbers are epoch
milliseconds (always parseable); strings are accepted when they use the
ISO-like character set this repository's timestamps use.  Full JS `Date`
parsing is a host builtin; no claim depends on its fine structure. -/
def dateParseable : JVal → Bool
  | .jnum _ => true
  | .jstr s =>
      !s.isEmpty && s.data.all (fun c =>
        c.isDigit || c == '-' || c == ':' || c == 'T' || c == '.' || c == 'Z' || c == '+' || c == ' ')
  | _ => false

/-- The valid-location list of validate-updates.js (line 16):
`parkirData.locations.map(l => l.nama)`.  Locations of this repository's
dataset carry a `name` field (required by `validateStructure`); the `nama`
property is absent on every location object, and an absent property access
yields `undefined`. -/
def validLocationsOf (d : Dataset) : List JVal :=
  d.locations.map (fun _l => JVal.jundef)

/-- The per-update validation rules of `validateAndCleanUpdates`
(validate-updates.js lines 25-56), in source order. -/
def updateErrors (validLocations : List JVal) (u : PendingUpdate) : List String :=
  (if truthy u.location_id = false ∨ isStr u.location_id = false
    then ["Missing or invalid location_id"] else []) ++
  (if truthy u.location_id = true ∧ validLocations.contains u.location_id = false
    then ["Invalid location_id: " ++ jsToString u.location_id] else []) ++
  (if truthy u.petugas_name = false ∨ isStr u.petugas_name = false
    then ["Missing or invalid petugas_name"] else []) ++
  (if u.bus ≠ JVal.jundef ∧ (jsIsNaN u.bus = true ∨ numLT0 u.bus = true)
    then ["Invalid bus value"] else []) ++
  (if u.mobil ≠ JVal.jundef ∧ (jsIsNaN u.mobil = true ∨ numLT0 u.mobil = true)
    then ["Invalid mobil value"] else []) ++
  (if u.motor ≠ JVal.jundef ∧ (jsIsNaN u.motor = true ∨ numLT0 u.motor = true)
    then ["Invalid motor value"] else []) ++
  (if truthy u.timestamp = true ∧ dateParseable u.timestamp = false
    then ["Invalid timestamp"] else [])

/-- Classification of the pending queue: error-free entries are kept
(cleaned and rewritten in place), the rest are archived to the invalid
side file (lines 57-97), in input order. -/
def classifyUpdates (validLocations : List JVal) (updates : List PendingUpdate) :
    List PendingUpdate × List PendingUpdate :=
  (updates.filter (fun u => (updateErrors validLocations u).isEmpty),
   updates.filter (fun u => !(updateErrors validLocations u).isEmpty))

/-- A concrete dataset location named "Parkir Utama" (as in the repository's
sample data). -/
def sampleLocation : Location :=
  { name := "Parkir Utama",
    bus := ⟨JVal.jnum 10, JVal.jnum 5⟩,
    mobil := ⟨JVal.jnum 0, JVal.jnum 0⟩,
    motor := ⟨JVal.jnum 0, JVal.jnum 0⟩ }

/-- A concrete dataset holding just `sampleLocation`. -/
def sampleDataset : Dataset := { locations := [sampleLocation] }

/-- A pending update whose `location_id` matches `sampleLocation.name` and
whose fields pass every field-level check. -/
def sampleUpdate : PendingUpdate :=
  { location_id := JVal.jstr "Parkir Utama", petugas_name := JVal.jstr "Budi" }

example :
    updateErrors (validLocationsOf sampleDataset) sampleUpdate
      = ["Invalid location_id: Parkir Utama"] := by with_unfolding_all decide

/-- The default configuration of the shipped program (`--mode=strict`, no
flags): force off, dry-run off, backup on. -/
def cfgDefault : Config := { force := false, dryRun := false, backup := true }

/-- The default configuration with `--dry-run`. -/
def cfgDryRun : Config := { force := false, dryRun := true, backup := true }

/-- A location whose bus total is the numeric string "10" (a JSON value the
loader accepts unchanged; `processVehicleType` keeps it, being truthy). -/
def locStrTen : Location :=
  { name := "A",
    bus := ⟨JVal.jstr "10", JVal.jnum 0⟩,
    mobil := ⟨JVal.jnum 0, JVal.jnum 0⟩,
    motor := ⟨JVal.jnum 0, JVal.jnum 0⟩ }

/-- A location whose bus total is the numeric string "5". -/
def locStrFive : Location :=
  { name := "B",
    bus := ⟨JVal.jstr "5", JVal.jnum 0⟩,
    mobil := ⟨JVal.jnum 0, JVal.jnum 0⟩,
    motor := ⟨JVal.jnum 0, JVal.jnum 0⟩ }

example :
    typeTotal cfgDefault [locStrTen, locStrFive] VType.bus = JVal.jstr "0105" := by
  with_unfolding_all decide
example :
    typeTotal cfgDefault [locStrFive, locStrTen] VType.bus = JVal.jstr "0510" := by
  with_unfolding_all decide

/-- The default configuration with `--force`. -/
def cfgForce : Config := { force := true, dryRun := false, backup := true }

/-- Is the value a JS number (excluding `NaN`)? -/
def isNum : JVal → Bool
  | .jnum _ => true
  | _ => false

/-- Both fields of the slot are numbers. -/
def slotNumeric (s : Slot) : Bool := isNum s.total && isNum s.available

/-- Every slot field of the location is a number. -/
def locNumeric (l : Location) : Bool :=
  slotNumeric l.bus && slotNumeric l.mobil && slotNumeric l.motor

/-- A dataset with no locations and an empty statistics block (`{}`), the
shape produced by the repository's setup script. -/
def emptyDataset : Dataset := { locations := [] }

/-- A dataset whose previous statistics block carries
`metadata.updateCount = 5` (the location a reader of the spec would expect
the counter to live at). -/
def datasetWithCounterFive : Dataset := { locations := [], statsMetaUpdateCount := some 5 }

/-- The slot of the spec's own scenario: `{total: -5, available: 10}`. -/
def specScenarioSlot : Slot := ⟨JVal.jnum (-5), JVal.jnum 10⟩

/-- A slot with a raw negative `available`: `{total: 10, available: -5}`. -/
def negAvailSlot : Slot := ⟨JVal.jnum 10, JVal.jnum (-5)⟩

/-- A slot with a raw negative `total`: `{total: -5, available: 0}`. -/
def negTotalSlot : Slot := ⟨JVal.jnum (-5), JVal.jnum 0⟩

/-- A second all-numeric location, used against `sampleLocation` to witness
the permutation invariance of aggregation on numeric datasets. -/
def locNumB : Location :=
  { name := "Parkir Timur",
    bus := ⟨JVal.jnum 5, JVal.jnum 2⟩,
    mobil := ⟨JVal.jnum 15, JVal.jnum 5⟩,
    motor := ⟨JVal.jnum 25, JVal.jnum 15⟩ }

/-!
Helper lemmas, followed by one theorem per claim.
-/

theorem parseNumber_nonneg (v : JVal) : 0 ≤ parseNumber v 0 := by
  unfold parseNumber
  split
  · exact le_refl 0
  · cases h : toNumber v with
    | none => simp
    | some q => simp

theorem truthy_of_parse_pos (v : JVal) (h : 0 < parseNumber v 0) : truthy v = true := by
  cases v with
  | jnull => simp [parseNumber] at h
  | jundef => simp [parseNumber] at h
  | jnan => simp [parseNumber, toNumber] at h
  | jobj => rfl
  | jbool b =>
      cases b with
      | true => rfl
      | false =>
          have h0 : parseNumber (JVal.jbool false) 0 = 0 := by
            simp [parseNumber, toNumber, jsRound]
            norm_num
          rw [h0] at h
          exact absurd h (lt_irrefl 0)
  | jnum q =>
      by_cases hq : q = 0
      · subst hq
        have : parseNumber (JVal.jnum 0) 0 = 0 := by
          simp [parseNumber, toNumber, jsRound]
          norm_num
        rw [this] at h
        exact absurd h (lt_irrefl 0)
      · simp [truthy, hq]
  | jstr s =>
      by_cases hs : s = ""
      · subst hs; simp [parseNumber] at h
      · simp [truthy, hs]

/-- C1: the spec's invariant `0 ≤ available ≤ total` fails on the code: at
the spec's own scenario slot `{total: -5, available: 10}` (any force
setting), line 468 computes `Math.min(10, -5)` and the processed slot is
`{total: -5, available: -5}`. -/
theorem c1_invariant_fails_on_spec_scenario :
    (processVehicleType cfgDefault VType.bus specScenarioSlot).slot
      = ⟨JVal.jnum (-5), JVal.jnum (-5)⟩
    ∧ (processVehicleType cfgForce VType.bus specScenarioSlot).slot
      = ⟨JVal.jnum (-5), JVal.jnum (-5)⟩
    ∧ slotInvariantHolds (processVehicleType cfgDefault VType.bus specScenarioSlot).slot
      = false := by
  with_unfolding_all decide

/-- C2: the claimed unconditional negative-available reset never happens:
`parseNumber` clamps the parsed value to `≥ 0`, so at `{total: 10,
available: -5}` the `available < 0` branch does not fire, no issue and no
fix are recorded, and the raw `-5` (being truthy) is left in the slot, under
both force settings. -/
theorem c2_negative_available_not_reset :
    (processVehicleType cfgDefault VType.bus negAvailSlot).issues = []
    ∧ (processVehicleType cfgDefault VType.bus negAvailSlot).fixes = []
    ∧ (processVehicleType cfgDefault VType.bus negAvailSlot).slot.available = JVal.jnum (-5)
    ∧ (processVehicleType cfgForce VType.bus negAvailSlot).slot.available = JVal.jnum (-5) := by
  with_unfolding_all decide

/-- C3 counterexample: a slot whose stored total `-5` lies outside
`[minCapacity, maxCapacity]` records no issue at all (the range check runs
on the parsed total, which `parseNumber` clamps to `0`), under both force
settings, and the out-of-range `-5` stays in the slot. -/
theorem c3_negative_total_records_no_issue :
    ((-5 : ℚ) < minCapacity)
    ∧ (processVehicleType cfgDefault VType.bus negTotalSlot).issues = []
    ∧ (processVehicleType cfgForce VType.bus negTotalSlot).issues = []
    ∧ (processVehicleType cfgDefault VType.bus negTotalSlot).slot.total = JVal.jnum (-5) := by
  with_unfolding_all decide

/-- C5: the update counter does not increase across runs: a run writes the
incremented counter to `performance.updateCount` but the next run reads
`metadata.updateCount`, which the written block no longer contains, so the
persisted counter is `1` after every run (even when the first input carried
a counter of `5`). -/
theorem c5_update_counter_resets :
    (computeStats cfgDefault emptyDataset).perfUpdateCount = 1
    ∧ (computeStats cfgDefault (applyRun cfgDefault emptyDataset)).perfUpdateCount = 1
    ∧ (computeStats cfgDefault datasetWithCounterFive).perfUpdateCount = 6
    ∧ (computeStats cfgDefault (applyRun cfgDefault datasetWithCounterFive)).perfUpdateCount = 1
    ∧ (computeStats cfgDefault (applyRun cfgDefault datasetWithCounterFive)).perfUpdateCount
        ≠ (computeStats cfgDefault datasetWithCounterFive).perfUpdateCount + 1 := by
  with_unfolding_all decide

/-- C6 counterexample: two locations whose bus totals are the numeric
strings "10" and "5" — JS `+=` concatenates, so permuting the locations
changes the accumulated bus capacity total ("0105" versus "0510"). -/
theorem c6_permutation_changes_totals :
    List.Perm [locStrTen, locStrFive] [locStrFive, locStrTen]
    ∧ typeTotal cfgDefault [locStrTen, locStrFive] VType.bus
        ≠ typeTotal cfgDefault [locStrFive, locStrTen] VType.bus := by
  constructor
  · exact List.Perm.swap locStrFive locStrTen []
  · with_unfolding_all decide

/-- C8 counterexample: a dry-run still writes files — the dated report, the
latest-report alias and the text summary are written unconditionally by
`generateReport`. -/
theorem c8_dry_run_writes_reports :
    Effect.reportWrite ∈ (runModel cfgDryRun emptyDataset).effects
    ∧ Effect.latestReportWrite ∈ (runModel cfgDryRun emptyDataset).effects
    ∧ Effect.summaryWrite ∈ (runModel cfgDryRun emptyDataset).effects := by
  with_unfolding_all decide

/-- C9: the updates validator rejects an update whose `location_id` equals a
dataset location's `name` and whose fields pass every field check: the
valid-location list is built from the absent `nama` property (all
`undefined`), so the update is archived as invalid instead of kept. -/
theorem c9_matching_update_rejected :
    sampleUpdate.location_id = JVal.jstr sampleLocation.name
    ∧ sampleLocation ∈ sampleDataset.locations
    ∧ updateErrors (validLocationsOf sampleDataset) sampleUpdate
        = ["Invalid location_id: Parkir Utama"]
    ∧ (classifyUpdates (validLocationsOf sampleDataset) [sampleUpdate]).1 = []
    ∧ (classifyUpdates (validLocationsOf sampleDataset) [sampleUpdate]).2 = [sampleUpdate] := by
  with_unfolding_all decide

/-- C4: the safe-parse function is deterministic (it is a function) and:
parse("10") = 10; parse("abc") = 0 with a warning; parse(null) = 0;
parse(-5) = 0; every numeric input is rounded to the nearest integer
(half up, JS `Math.round`) and clamped to `≥ 0`; empty, missing and null
inputs give the configured default. -/
theorem c4_parse_number_spec :
    parseNumber (JVal.jstr "10") 0 = 10
    ∧ (parseNumber (JVal.jstr "abc") 0 = 0 ∧ parseNumberWarns (JVal.jstr "abc") = true)
    ∧ parseNumber JVal.jnull 0 = 0
    ∧ parseNumber (JVal.jnum (-5)) 0 = 0
    ∧ (∀ q : ℚ, parseNumber (JVal.jnum q) 0 = max 0 ((jsRound q : ℤ) : ℚ))
    ∧ (∀ d : ℚ, parseNumber (JVal.jstr "") d = d ∧ parseNumber JVal.jundef d = d
        ∧ parseNumber JVal.jnull d = d) := by
  refine ⟨by with_unfolding_all decide,
    ⟨by with_unfolding_all decide, by with_unfolding_all decide⟩,
    by with_unfolding_all decide, by with_unfolding_all decide, ?_, ?_⟩
  · intro q
    simp [parseNumber, toNumber]
  · intro d
    refine ⟨?_, ?_, ?_⟩ <;> simp [parseNumber]

/-- C7: every utilization site (per-location recommendations, per-type and
overall statistics, top-utilized ranking) is total (`isSome`: no division
by zero for any input), equals `(total - available) / total * 100` when
`total > 0`, and equals `0` when `total = 0`. -/
theorem c7_utilization_guard (t a : ℚ) :
    ((recUtil t a).isSome = true ∧ (typeUtil t a).isSome = true
      ∧ (overallUtil t a).isSome = true ∧ (topLocUtil t a).isSome = true)
    ∧ (t > 0 → recUtil t a = some ((t - a) / t * 100) ∧ typeUtil t a = some ((t - a) / t * 100)
        ∧ overallUtil t a = some ((t - a) / t * 100) ∧ topLocUtil t a = some ((t - a) / t * 100))
    ∧ (t = 0 → recUtil t a = some 0 ∧ typeUtil t a = some 0
        ∧ overallUtil t a = some 0 ∧ topLocUtil t a = some 0) := by
  by_cases h : t > 0
  · have hne : t ≠ 0 := ne_of_gt h
    have e1 : recUtil t a = some ((t - a) / t * 100) := by simp [recUtil, jsDiv, h, hne]
    have e2 : typeUtil t a = some ((t - a) / t * 100) := by simp [typeUtil, jsDiv, h, hne]
    have e3 : overallUtil t a = some ((t - a) / t * 100) := by simp [overallUtil, jsDiv, h, hne]
    have e4 : topLocUtil t a = some ((t - a) / t * 100) := by simp [topLocUtil, jsDiv, h, hne]
    exact ⟨⟨by simp [e1], by simp [e2], by simp [e3], by simp [e4]⟩,
      fun _ => ⟨e1, e2, e3, e4⟩,
      fun h0 => absurd h (by rw [h0]; exact lt_irrefl 0)⟩
  · have e1 : recUtil t a = some 0 := by simp [recUtil, h]
    have e2 : typeUtil t a = some 0 := by simp [typeUtil, h]
    have e3 : overallUtil t a = some 0 := by simp [overallUtil, h]
    have e4 : topLocUtil t a = some 0 := by simp [topLocUtil, h]
    exact ⟨⟨by simp [e1], by simp [e2], by simp [e3], by simp [e4]⟩,
      fun hpos => absurd hpos h,
      fun _ => ⟨e1, e2, e3, e4⟩⟩

/-- C7 witness: the guard theorem evaluated at `total = 10, available = 5`
and at `total = 0`. -/
theorem c7_utilization_guard_witness :
    (0 : ℚ) < 10
    ∧ recUtil 10 5 = some (((10 : ℚ) - 5) / 10 * 100)
    ∧ typeUtil 10 5 = some (((10 : ℚ) - 5) / 10 * 100)
    ∧ overallUtil 0 7 = some 0 := by
  refine ⟨by norm_num, ?_, ?_, ?_⟩
  · exact ((c7_utilization_guard 10 5).2.1 (by norm_num)).1
  · exact ((c7_utilization_guard 10 5).2.1 (by norm_num)).2.1
  · exact ((c7_utilization_guard 0 7).2.2 rfl).2.2.1

theorem truthy_jnum_maxCapacity : truthy (JVal.jnum maxCapacity) = true := by
  with_unfolding_all decide

/-- C3 amended: for every slot whose parsed total exceeds `maxCapacity` an
issue is always recorded; the total is clamped to the bound (with a fix
recorded) only when force is on, and otherwise the stored out-of-range value
is left in place with no capping fix; the below-minimum issue can never be
recorded because the parsed total is clamped to `≥ 0 = minCapacity` by
safe-parse (so raw negative totals are parsed as 0 and never flagged, per
the counterexample). -/
theorem c3_out_of_range_total_amended (cfg : Config) (vt : VType) (T A : JVal)
    (hp : parseNumber T 0 > maxCapacity) :
    Issue.aboveMax vt (parseNumber T 0) maxCapacity ∈ (processVehicleType cfg vt ⟨T, A⟩).issues
    ∧ (∀ q b, Issue.belowMin vt q b ∉ (processVehicleType cfg vt ⟨T, A⟩).issues)
    ∧ (cfg.force = true → (processVehicleType cfg vt ⟨T, A⟩).slot.total = JVal.jnum maxCapacity
        ∧ FixEntry.cappedMax vt maxCapacity ∈ (processVehicleType cfg vt ⟨T, A⟩).fixes)
    ∧ (cfg.force = false → (processVehicleType cfg vt ⟨T, A⟩).slot.total = T
        ∧ ∀ b, FixEntry.cappedMax vt b ∉ (processVehicleType cfg vt ⟨T, A⟩).fixes) := by
  have hmax0 : (0 : ℚ) < maxCapacity := by unfold maxCapacity; norm_num
  have hpos : 0 < parseNumber T 0 := lt_trans hmax0 hp
  have htr : truthy T = true := truthy_of_parse_pos T hpos
  have hmin : ¬ (parseNumber T 0 < minCapacity) :=
    not_lt.mpr (by unfold minCapacity; exact parseNumber_nonneg T)
  have hminF : ¬ (parseNumber T 0 < minCapacity ∧ cfg.force = true) := fun hc => hmin hc.1
  have hav : ¬ (parseNumber A 0 < 0) := not_lt.mpr (parseNumber_nonneg A)
  refine ⟨?_, ?_, ?_, ?_⟩
  · simp only [processVehicleType]
    simp [if_neg hmin, if_pos hp, if_neg hav]
  · intro q b
    simp only [processVehicleType]
    simp only [if_neg hmin, if_pos hp, if_neg hav]
    simp only [List.mem_append, List.nil_append, List.mem_singleton]
    intro hc
    rcases hc with (hc | hc) | hc
    · exact absurd hc (by simp)
    · exact absurd hc (by simp)
    · revert hc
      split <;> simp
  · intro hforce
    have hmaxF : parseNumber T 0 > maxCapacity ∧ cfg.force = true := ⟨hp, hforce⟩
    constructor
    · simp only [processVehicleType]
      simp [if_neg hminF, if_pos hmaxF, truthy_jnum_maxCapacity]
    · simp only [processVehicleType]
      simp [if_neg hminF, if_pos hmaxF, if_neg hav]
  · intro hforce
    have hmaxF : ¬ (parseNumber T 0 > maxCapacity ∧ cfg.force = true) := by
      intro hc
      rw [hforce] at hc
      exact Bool.false_ne_true hc.2
    constructor
    · simp only [processVehicleType]
      simp [if_neg hminF, if_neg hmaxF, if_neg hav, htr]
    · intro b
      simp only [processVehicleType]
      simp only [if_neg hminF, if_neg hmaxF, if_neg hav]
      split_ifs <;> simp

/-- C3 witness: the amended theorem at a slot `{total: 2000, available: 0}`
under force. -/
theorem c3_out_of_range_total_witness :
    parseNumber (JVal.jnum 2000) 0 > maxCapacity
    ∧ Issue.aboveMax VType.bus (parseNumber (JVal.jnum 2000) 0) maxCapacity
        ∈ (processVehicleType cfgForce VType.bus ⟨JVal.jnum 2000, JVal.jnum 0⟩).issues
    ∧ (processVehicleType cfgForce VType.bus ⟨JVal.jnum 2000, JVal.jnum 0⟩).slot.total
        = JVal.jnum maxCapacity := by
  have hp : parseNumber (JVal.jnum 2000) 0 > maxCapacity := by with_unfolding_all decide
  have h := c3_out_of_range_total_amended cfgForce VType.bus (JVal.jnum 2000) (JVal.jnum 0) hp
  exact ⟨hp, h.1, (h.2.2.1 rfl).1⟩

/-- C8 amended: in dry-run mode no backup is created and the dataset file is
not rewritten, and a second dry-run over the resulting file state computes
identical statistics (the file state is unchanged); however report files are
still written (see the counterexample theorem). -/
theorem c8_dry_run_amended (cfg : Config) (d : Dataset) (h : cfg.dryRun = true) :
    Effect.backupWrite ∉ (runModel cfg d).effects
    ∧ Effect.dataWrite ∉ (runModel cfg d).effects
    ∧ (runModel cfg (runModel cfg d).fileState).stats = (runModel cfg d).stats := by
  refine ⟨?_, ?_, ?_⟩
  · simp [runModel, h]
  · simp [runModel, h]
  · simp [runModel, h]

/-- C8 witness: the amended theorem at the dry-run configuration and the
empty dataset. -/
theorem c8_dry_run_amended_witness :
    Effect.backupWrite ∉ (runModel cfgDryRun emptyDataset).effects
    ∧ Effect.dataWrite ∉ (runModel cfgDryRun emptyDataset).effects
    ∧ (runModel cfgDryRun (runModel cfgDryRun emptyDataset).fileState).stats
        = (runModel cfgDryRun emptyDataset).stats :=
  c8_dry_run_amended cfgDryRun emptyDataset rfl

theorem isNum_iff (v : JVal) : isNum v = true ↔ ∃ q, v = JVal.jnum q := by
  cases v <;> simp [isNum]

theorem processLocation_slotOf (cfg : Config) (l : Location) (vt : VType) :
    (processLocation cfg l).loc.slotOf vt = (processVehicleType cfg vt (l.slotOf vt)).slot := by
  cases vt <;> rfl

theorem processVehicleType_numeric (cfg : Config) (vt : VType) (s : Slot)
    (h : slotNumeric s = true) :
    isNum (processVehicleType cfg vt s).slot.total = true
    ∧ isNum (processVehicleType cfg vt s).slot.available = true := by
  simp only [slotNumeric, Bool.and_eq_true] at h
  obtain ⟨h1, h2⟩ := h
  obtain ⟨qt, hqt⟩ := (isNum_iff s.total).mp h1
  obtain ⟨qa, hqa⟩ := (isNum_iff s.available).mp h2
  simp only [processVehicleType, hqt, hqa]
  constructor <;> · split_ifs <;> simp [isNum, jsMin, toNumber]

theorem foldl_jsAdd_eq_sum (f : Location → JVal) (locs : List Location)
    (h : ∀ l ∈ locs, isNum (f l) = true) :
    ∀ q0 : ℚ, locs.foldl (fun a l => jsAdd a (f l)) (JVal.jnum q0)
      = JVal.jnum (q0 + (locs.map (fun l => numOf (f l))).sum) := by
  induction locs with
  | nil => intro q0; simp
  | cons x xs ih =>
      intro q0
      obtain ⟨qx, hqx⟩ := (isNum_iff (f x)).mp (h x (List.mem_cons_self x xs))
      have hadd : jsAdd (JVal.jnum q0) (f x) = JVal.jnum (q0 + qx) := by rw [hqx]; rfl
      simp only [List.foldl_cons, hadd]
      rw [ih (fun l hl => h l (List.mem_cons_of_mem x hl)) (q0 + qx)]
      simp only [List.map_cons, List.sum_cons, hqx, numOf, toNumber, Option.getD_some]
      congr 1
      ring

theorem slotNumeric_slotOf (l : Location) (vt : VType) (h : locNumeric l = true) :
    slotNumeric (l.slotOf vt) = true := by
  simp only [locNumeric, Bool.and_eq_true] at h
  obtain ⟨⟨h1, h2⟩, h3⟩ := h
  cases vt with
  | bus => exact h1
  | mobil => exact h2
  | motor => exact h3

theorem typeTotal_perm (cfg : Config) {locs locs' : List Location} (hp : locs.Perm locs')
    (hn : ∀ l ∈ locs, locNumeric l = true) (vt : VType) :
    typeTotal cfg locs vt = typeTotal cfg locs' vt := by
  have hn' : ∀ l ∈ locs', locNumeric l = true := fun l hl => hn l (hp.mem_iff.mpr hl)
  have hf : ∀ l ∈ locs, isNum (((processLocation cfg l).loc.slotOf vt).total) = true := by
    intro l hl
    rw [processLocation_slotOf]
    exact (processVehicleType_numeric cfg vt (l.slotOf vt) (slotNumeric_slotOf l vt (hn l hl))).1
  have hf' : ∀ l ∈ locs', isNum (((processLocation cfg l).loc.slotOf vt).total) = true := by
    intro l hl
    rw [processLocation_slotOf]
    exact (processVehicleType_numeric cfg vt (l.slotOf vt) (slotNumeric_slotOf l vt (hn' l hl))).1
  have e1 := foldl_jsAdd_eq_sum (fun l => ((processLocation cfg l).loc.slotOf vt).total) locs hf 0
  have e2 := foldl_jsAdd_eq_sum (fun l => ((processLocation cfg l).loc.slotOf vt).total) locs' hf' 0
  have hsum :
      (locs.map (fun l => numOf (((processLocation cfg l).loc.slotOf vt).total))).sum
        = (locs'.map (fun l => numOf (((processLocation cfg l).loc.slotOf vt).total))).sum :=
    (hp.map _).sum_eq
  exact (e1.trans (by rw [hsum])).trans e2.symm

theorem typeAvail_perm (cfg : Config) {locs locs' : List Location} (hp : locs.Perm locs')
    (hn : ∀ l ∈ locs, locNumeric l = true) (vt : VType) :
    typeAvail cfg locs vt = typeAvail cfg locs' vt := by
  have hn' : ∀ l ∈ locs', locNumeric l = true := fun l hl => hn l (hp.mem_iff.mpr hl)
  have hf : ∀ l ∈ locs, isNum (((processLocation cfg l).loc.slotOf vt).available) = true := by
    intro l hl
    rw [processLocation_slotOf]
    exact (processVehicleType_numeric cfg vt (l.slotOf vt) (slotNumeric_slotOf l vt (hn l hl))).2
  have hf' : ∀ l ∈ locs', isNum (((processLocation cfg l).loc.slotOf vt).available) = true := by
    intro l hl
    rw [processLocation_slotOf]
    exact (processVehicleType_numeric cfg vt (l.slotOf vt) (slotNumeric_slotOf l vt (hn' l hl))).2
  have e1 := foldl_jsAdd_eq_sum (fun l => ((processLocation cfg l).loc.slotOf vt).available) locs hf 0
  have e2 := foldl_jsAdd_eq_sum (fun l => ((processLocation cfg l).loc.slotOf vt).available) locs' hf' 0
  have hsum :
      (locs.map (fun l => numOf (((processLocation cfg l).loc.slotOf vt).available))).sum
        = (locs'.map (fun l => numOf (((processLocation cfg l).loc.slotOf vt).available))).sum :=
    (hp.map _).sum_eq
  exact (e1.trans (by rw [hsum])).trans e2.symm

/-- C6 amended: for every dataset whose slot values are all numbers,
permuting the locations list leaves every per-type capacity total, every
per-type available total, the dataset-wide totals and the overall
utilization unchanged.  (With non-numeric slot values JS `+=` concatenates
strings and the accumulation is order-dependent — see the counterexample.) -/
theorem c6_numeric_permutation_invariant (cfg : Config) (locs locs' : List Location)
    (hp : locs.Perm locs') (hn : ∀ l ∈ locs, locNumeric l = true) :
    (∀ vt, typeTotal cfg locs vt = typeTotal cfg locs' vt)
    ∧ (∀ vt, typeAvail cfg locs vt = typeAvail cfg locs' vt)
    ∧ totalsTotalJ cfg locs = totalsTotalJ cfg locs'
    ∧ availTotalJ cfg locs = availTotalJ cfg locs'
    ∧ overallUtilJ (totalsTotalJ cfg locs) (availTotalJ cfg locs)
        = overallUtilJ (totalsTotalJ cfg locs') (availTotalJ cfg locs') := by
  have ht : ∀ vt, typeTotal cfg locs vt = typeTotal cfg locs' vt :=
    fun vt => typeTotal_perm cfg hp hn vt
  have ha : ∀ vt, typeAvail cfg locs vt = typeAvail cfg locs' vt :=
    fun vt => typeAvail_perm cfg hp hn vt
  have htt : totalsTotalJ cfg locs = totalsTotalJ cfg locs' := by
    unfold totalsTotalJ
    rw [ht VType.bus, ht VType.mobil, ht VType.motor]
  have hat : availTotalJ cfg locs = availTotalJ cfg locs' := by
    unfold availTotalJ
    rw [ha VType.bus, ha VType.mobil, ha VType.motor]
  exact ⟨ht, ha, htt, hat, by rw [htt, hat]⟩

/-- C6 witness: the amended theorem at the two concrete numeric locations,
swapped. -/
theorem c6_numeric_permutation_witness :
    List.Perm [sampleLocation, locNumB] [locNumB, sampleLocation]
    ∧ (∀ l ∈ [sampleLocation, locNumB], locNumeric l = true)
    ∧ typeTotal cfgDefault [sampleLocation, locNumB] VType.bus
        = typeTotal cfgDefault [locNumB, sampleLocation] VType.bus := by
  have hp : List.Perm [sampleLocation, locNumB] [locNumB, sampleLocation] :=
    List.Perm.swap locNumB sampleLocation []
  have hn : ∀ l ∈ [sampleLocation, locNumB], locNumeric l = true := by
    intro l hl
    simp only [List.mem_cons, List.not_mem_nil, or_false] at hl
    rcases hl with rfl | rfl <;> with_unfolding_all decide
  exact ⟨hp, hn, (c6_numeric_permutation_invariant cfgDefault _ _ hp hn).1 VType.bus⟩

theorem strData_append (s t : String) : (s ++ t).data = s.data ++ t.data := by
  cases s
  cases t
  rfl

theorem digitChar_safe (d : ℕ) : digitChar d ≠ 'W' ∧ digitChar d ≠ 'H' := by
  unfold digitChar
  split_ifs <;> exact ⟨by decide, by decide⟩

theorem natDigsAux_safe (fuel : ℕ) : ∀ n c, c ∈ natDigsAux fuel n → c ≠ 'W' ∧ c ≠ 'H' := by
  induction fuel with
  | zero => intro n c hc; simp [natDigsAux] at hc
  | succ f ih =>
      intro n c hc
      simp only [natDigsAux] at hc
      by_cases h : n < 10
      · rw [if_pos h] at hc
        simp only [List.mem_singleton] at hc
        subst hc
        exact digitChar_safe n
      · rw [if_neg h] at hc
        rcases List.mem_append.mp hc with hc | hc
        · exact ih (n / 10) c hc
        · simp only [List.mem_singleton] at hc
          subst hc
          exact digitChar_safe (n % 10)

theorem renderQ_safe (q : ℚ) : ∀ c ∈ renderQ q, c ≠ 'W' ∧ c ≠ 'H' := by
  intro c hc
  unfold renderQ at hc
  rcases List.mem_append.mp hc with hc | hc
  · rcases List.mem_append.mp hc with hc | hc
    · revert hc
      split
      · intro hc
        simp only [List.mem_singleton] at hc
        subst hc
        exact ⟨by decide, by decide⟩
      · intro hc
        simp at hc
    · exact natDigsAux_safe _ _ c hc
  · revert hc
    split
    · intro hc
      simp at hc
    · intro hc
      rcases List.mem_cons.mp hc with rfl | hc
      · exact ⟨by decide, by decide⟩
      · exact natDigsAux_safe _ _ c hc

theorem qStr_safe (q : ℚ) : ∀ c ∈ (qStr q).data, c ≠ 'W' ∧ c ≠ 'H' :=
  fun c hc => renderQ_safe q c hc

theorem safeStr_append {s t : String} (hs : ∀ c ∈ s.data, c ≠ 'W' ∧ c ≠ 'H')
    (ht : ∀ c ∈ t.data, c ≠ 'W' ∧ c ≠ 'H') : ∀ c ∈ (s ++ t).data, c ≠ 'W' ∧ c ≠ 'H' := by
  intro c hc
  rw [strData_append] at hc
  rcases List.mem_append.mp hc with h | h
  · exact hs c h
  · exact ht c h

theorem label_safe (vt : VType) : ∀ c ∈ vt.label.data, c ≠ 'W' ∧ c ≠ 'H' := by
  cases vt <;> decide

theorem renderIssue_safe (i : Issue) : ∀ c ∈ (renderIssue i).data, c ≠ 'W' ∧ c ≠ 'H' := by
  cases i with
  | belowMin vt t b =>
      exact safeStr_append (safeStr_append (safeStr_append (safeStr_append
        (label_safe vt) (by decide)) (qStr_safe t)) (by decide)) (qStr_safe b)
        |> fun h => safeStr_append h (by decide)
  | aboveMax vt t b =>
      exact safeStr_append (safeStr_append (safeStr_append (safeStr_append
        (label_safe vt) (by decide)) (qStr_safe t)) (by decide)) (qStr_safe b)
        |> fun h => safeStr_append h (by decide)
  | negAvail vt a =>
      exact safeStr_append (safeStr_append (safeStr_append
        (label_safe vt) (by decide)) (qStr_safe a)) (by decide)
  | availExceeds vt a t =>
      exact safeStr_append (safeStr_append (safeStr_append (safeStr_append
        (label_safe vt) (by decide)) (qStr_safe a)) (by decide)) (qStr_safe t)
        |> fun h => safeStr_append h (by decide)

theorem includes_warning_high_false (s : String) (h : ∀ c ∈ s.data, c ≠ 'W' ∧ c ≠ 'H') :
    includesStr s "Warning" = false ∧ includesStr s "High" = false := by
  constructor
  · rw [includesStr, decide_eq_false_iff_not]
    intro hinf
    exact (h 'W' (hinf.subset (by decide))).1 rfl
  · rw [includesStr, decide_eq_false_iff_not]
    intro hinf
    exact (h 'H' (hinf.subset (by decide))).2 rfl

/-- C10: for every configuration and every dataset, the report's
`issues_by_severity.warning` count is 0: no issue string produced by
`processVehicleType` contains the substring "Warning" or "High" (those
appear only in recommendation texts, which the severity classification
never examines). -/
theorem c10_warning_severity_zero (cfg : Config) (locs : List Location) :
    warningSeverity cfg locs = 0 := by
  unfold warningSeverity
  rw [List.length_eq_zero, List.filter_eq_nil_iff]
  intro e he
  unfold resultsIssues at he
  obtain ⟨l, _, rfl⟩ := List.mem_map.mp (List.mem_filter.mp he).1
  intro hc
  obtain ⟨s, hs, hpred⟩ := List.any_eq_true.mp hc
  unfold locationIssueStrings at hs
  obtain ⟨i, _, rfl⟩ := List.mem_map.mp hs
  have hsafe := renderIssue_safe i
  rw [(includes_warning_high_false _ hsafe).1, (includes_warning_high_false _ hsafe).2] at hpred
  simp at hpred
